import Mathlib

/-!
# Verification of the `news_extraction` deduplication engine and pipeline orchestrator

A shallow embedding, in Lean 4, of the core of the `news_extraction` repository:

* `src/news_extraction_prod/src/deduplicator.py` (`find_duplicates`, `remove_duplicates`),
* `src/news_extraction_prod/src/ai_summarizer.py` (`AISummarizer.summarize`,
  `AISummarizer._fallback_summary`, `process_article_summaries`),
* `src/news_extraction_prod/src/news_pipeline.py` (`NewsProcessor.run_daily_pipeline`
  together with its per-stage helper methods).

Modelling conventions:

* A Python `str` is modelled as `List Char` (named `Str` below), so that every string
  operation is an ordinary structural recursion that the kernel can evaluate.
  Literals are written `str "..."` where `str` extracts the character list of a
  Lean string literal.
* A Python dict-backed article is a structure of `Option` fields: `none` models an
  absent key, so `article.get('k', d)` becomes `a.k.getD d`.
* Python floats (similarity scores, thresholds) are modelled as `ℚ`.
* External effectful collaborators (the HTTP based fetcher, the content extractor,
  the OpenRouter client, the TTS generator, the Telegram sender, and the scikit-learn
  vectorizer) are modelled as explicit environment records of pure functions with an
  `Except` result standing for "returned normally / raised an exception".
-/

namespace NewsExtraction

/-- A Python string: a list of characters. -/
abbrev Str := List Char

/-- The character list of a string literal. -/
def str (s : String) : Str := s.data

/-! ## Articles

An article dictionary, restricted to the keys the deduplicator, summarizer and
pipeline statistics read: `source`, `title`, `full_text`, `ai_summary`, `summary`,
`extraction_successful`.  A `none` field models an absent key. -/

structure Article where
  source : Option Str := none
  title : Option Str := none
  full_text : Option Str := none
  ai_summary : Option Str := none
  summary : Option Str := none
  extraction_successful : Option Bool := none
  deriving DecidableEq, Inhabited, Repr

/-- Python `articles[i]` for an in-range index (out of range gives the blank article,
which never happens at the call sites: every index used comes from `range(len(articles))`). -/
def nth (articles : List Article) (i : Nat) : Article := articles.getD i {}

/-- `len(article.get('full_text', ''))`, the content length used by the duplicate
resolver's tie-break (deduplicator.py lines 91-92). -/
def contentLen (a : Article) : Nat := (a.full_text.getD []).length

/-! ## Deduplicator: comparison texts (deduplicator.py lines 41-53) -/

/-- Python `Char` lowering of a whole string (`str.lower`). -/
def lower (s : Str) : Str := s.map Char.toLower

/-- The comparison text of one article, translated from deduplicator.py lines 43-53:

```python
title = article.get('title', '')
full_text = article.get('full_text', '')
summary = article.get('ai_summary', article.get('summary', ''))
text_content = full_text if full_text else summary
combined_text = f"{title} {title} {text_content}".lower()
```
-/
def comparisonText (a : Article) : Str :=
  lower ((a.title.getD []) ++ str " " ++ (a.title.getD []) ++ str " " ++
    (if a.full_text.getD [] ≠ [] then a.full_text.getD []
     else a.ai_summary.getD (a.summary.getD [])))

/-- The list of texts handed to the TF-IDF vectorizer (deduplicator.py lines 41-53). -/
def comparisonTexts (articles : List Article) : List Str :=
  articles.map comparisonText

/-- Written from the spec's words (claim C4): "the comparison text used for
vectorization equals the title repeated twice, concatenated with full_text if it
is non-empty, otherwise the article's ai_summary, otherwise its raw feed summary,
the whole string lower-cased".  The `aiSummary` field is optional in the spec's
data model, so "otherwise" falls through to the raw feed summary when the field
is absent. -/
def comparisonTextSpec (a : Article) : Str :=
  lower ((a.title.getD []) ++ str " " ++ (a.title.getD []) ++ str " " ++
    (if a.full_text.getD [] ≠ [] then a.full_text.getD []
     else match a.ai_summary with
       | some s => s
       | none => a.summary.getD []))

/-! ## Deduplicator: the TF-IDF vectorizer boundary

`find_duplicates` builds a `TfidfVectorizer(stop_words='english', max_features=5000,
ngram_range=(1, 2))`, fits it on the comparison texts and takes pairwise cosine
similarities (deduplicator.py lines 55-65).  scikit-learn is external library code;
we model the one discrete behaviour the surrounding `try/except` depends on — that
`fit_transform` raises `ValueError("empty vocabulary; perhaps the documents only
contain stop words")` when no term survives tokenization and stop-word filtering —
and abstract the floating-point similarity values themselves as a function
parameter `sim`.  The `max_features=5000` cap cannot make a non-empty vocabulary
empty, so it does not affect the emptiness test. -/

/-- A word character of the default sklearn token pattern `(?u)\b\w\w+\b`. -/
def isWordChar (c : Char) : Bool := c.isAlphanum || c == '_'

/-- Accumulator-based splitter: maximal runs of word characters. -/
def tokenRuns : Str → Str → List Str
  | cur, [] => if cur = [] then [] else [cur.reverse]
  | cur, c :: rest =>
    if isWordChar c then tokenRuns (c :: cur) rest
    else if cur = [] then tokenRuns [] rest
    else cur.reverse :: tokenRuns [] rest

/-- sklearn tokenization: lower-case, then keep the maximal word-character runs of
length at least two (token pattern `\w\w+`). -/
def tokenize (s : Str) : List Str :=
  (tokenRuns [] (lower s)).filter (fun t => decide (2 ≤ t.length))

/-- Unigrams and bigrams of a token list (`ngram_range=(1, 2)`). -/
def ngrams (tokens : List Str) : List Str :=
  tokens ++ (tokens.zip tokens.tail).map (fun p => p.1 ++ str " " ++ p.2)

/-- The terms one document contributes to the fitted vocabulary, after stop-word
removal (`stop_words='english'`; the concrete stop-word list is a parameter). -/
def docTerms (stopWords : List Str) (text : Str) : List Str :=
  ngrams ((tokenize text).filter (fun t => !stopWords.contains t))

/-- All terms contributed by a corpus; the fitted vocabulary is empty iff this is. -/
def vocabularyTerms (stopWords : List Str) : List Str → List Str
  | [] => []
  | t :: rest => docTerms stopWords t ++ vocabularyTerms stopWords rest

/-- Model of `TfidfVectorizer(...).fit_transform(texts)` followed by
`cosine_similarity`: raises (returns `.error`) exactly when the fitted vocabulary
is empty, and otherwise yields a pairwise similarity matrix whose numeric entries
are abstracted as `sim`. -/
def tfidfVectorize (stopWords : List Str) (sim : Nat → Nat → ℚ) (texts : List Str) :
    Except Str (Nat → Nat → ℚ) :=
  if vocabularyTerms stopWords texts = [] then
    .error (str "empty vocabulary; perhaps the documents only contain stop words")
  else .ok sim

/-! ## Deduplicator: `find_duplicates` (deduplicator.py lines 14-125) -/

/-- One entry of the `duplicate_pairs` list (deduplicator.py lines 75-83). -/
structure DuplicatePair where
  article1_idx : Nat
  article2_idx : Nat
  similarity_score : ℚ
  article1_title : Str
  article2_title : Str
  article1_source : Str
  article2_source : Str
  deriving DecidableEq, Repr

/-- The `stats` dict of a `find_duplicates` result.  The `error` field is `some`
exactly in the `except` branch (deduplicator.py lines 114-125). -/
structure FindDupStats where
  total_articles : Nat
  duplicate_pairs_found : Nat
  articles_to_remove_count : Nat
  error : Option Str := none
  deriving DecidableEq, Repr

/-- The result dict of `find_duplicates`. -/
structure FindDupResult where
  duplicate_pairs : List DuplicatePair
  articles_to_remove : Finset Nat
  stats : FindDupStats

/-- The indices visited by the nested loop
`for i in range(n): for j in range(i + 1, n):`, in visit order. -/
def pairsFrom (n : Nat) : List Nat → List (Nat × Nat)
  | [] => []
  | i :: rest =>
    ((List.range n).filter (fun j => decide (i < j))).map (fun j => (i, j)) ++ pairsFrom n rest

/-- All index pairs `(i, j)` with `i < j < n`, in loop order. -/
def pairIndices (n : Nat) : List (Nat × Nat) := pairsFrom n (List.range n)

/-- The loop body of `find_duplicates` (deduplicator.py lines 71-97): when the pair's
similarity strictly exceeds the threshold, append a `DuplicatePair` record and add to
the removal set the second index when `content1_length >= content2_length`, the first
index otherwise. -/
def dupStep (articles : List Article) (threshold : ℚ) (sim : Nat → Nat → ℚ)
    (acc : List DuplicatePair × Finset Nat) (ij : Nat × Nat) :
    List DuplicatePair × Finset Nat :=
  if sim ij.1 ij.2 > threshold then
    let a1 := nth articles ij.1
    let a2 := nth articles ij.2
    let pair : DuplicatePair :=
      { article1_idx := ij.1
        article2_idx := ij.2
        similarity_score := sim ij.1 ij.2
        article1_title := a1.title.getD (str "Unknown")
        article2_title := a2.title.getD (str "Unknown")
        article1_source := a1.source.getD (str "Unknown")
        article2_source := a2.source.getD (str "Unknown") }
    (acc.1 ++ [pair],
      insert (if contentLen a1 ≥ contentLen a2 then ij.2 else ij.1) acc.2)
  else acc

/-- `find_duplicates(articles, similarity_threshold)` (deduplicator.py lines 14-125),
parametric in the vectorizer model `vectorize` (instantiated with `tfidfVectorize`
for the claims about the scikit-learn boundary, and with `fun _ => .ok sim` for the
claims that quantify over an arbitrary computed similarity matrix):

* fewer than two articles: trivial empty result (lines 25-35);
* the vectorizer raising: the `except` branch result — empty pairs, empty removal
  set, `error` recorded in the stats (lines 114-125);
* otherwise: the nested pair loop (lines 71-97) and the result dict (lines 99-109).
-/
def find_duplicates (vectorize : List Str → Except Str (Nat → Nat → ℚ))
    (articles : List Article) (threshold : ℚ) : FindDupResult :=
  if articles.length < 2 then
    { duplicate_pairs := []
      articles_to_remove := ∅
      stats := { total_articles := articles.length
                 duplicate_pairs_found := 0
                 articles_to_remove_count := 0 } }
  else
    match vectorize (comparisonTexts articles) with
    | .error e =>
      { duplicate_pairs := []
        articles_to_remove := ∅
        stats := { total_articles := articles.length
                   duplicate_pairs_found := 0
                   articles_to_remove_count := 0
                   error := some e } }
    | .ok sim =>
      let res := (pairIndices articles.length).foldl (dupStep articles threshold sim) ([], ∅)
      { duplicate_pairs := res.1
        articles_to_remove := res.2
        stats := { total_articles := articles.length
                   duplicate_pairs_found := res.1.length
                   articles_to_remove_count := res.2.card } }

/-! ## Deduplicator: `remove_duplicates` (deduplicator.py lines 127-183) -/

/-- One entry of the `removed_articles` list: the article dict merged with
`removal_reason` and `original_index` (deduplicator.py lines 162-166). -/
structure RemovedArticle where
  article : Article
  removal_reason : Str
  original_index : Nat
  deriving DecidableEq, Repr

/-- The `deduplication_stats` dict of a `remove_duplicates` result.  (In the
empty-input early return the Python dict omits the `duplicate_pairs_found` key;
we model that branch with the count 0.) -/
structure RemoveDupStats where
  original_count : Nat
  final_count : Nat
  duplicates_removed : Nat
  duplicate_pairs_found : Nat
  deriving DecidableEq, Repr

/-- The result dict of `remove_duplicates`. -/
structure RemoveDupResult where
  articles : List Article
  removed_articles : List RemovedArticle
  deduplication_stats : RemoveDupStats
  duplicate_pairs : List DuplicatePair

/-- Python `enumerate(articles)` starting at index `i`. -/
def enumFrom (i : Nat) : List Article → List (Nat × Article)
  | [] => []
  | a :: rest => (i, a) :: enumFrom (i + 1) rest

/-- The partition loop of `remove_duplicates` (deduplicator.py lines 156-168):
articles at removed indices are collected (tagged with the removal reason and
their original index), the others are kept in order. -/
def partitionArticles (toRemove : Finset Nat) :
    List (Nat × Article) → List Article × List RemovedArticle
  | [] => ([], [])
  | (i, a) :: rest =>
    let acc := partitionArticles toRemove rest
    if i ∈ toRemove then
      (acc.1, { article := a, removal_reason := str "duplicate_content", original_index := i } :: acc.2)
    else (a :: acc.1, acc.2)

/-- `remove_duplicates(articles, similarity_threshold)` (deduplicator.py
lines 127-183), with the same `vectorize` parameter as `find_duplicates`. -/
def remove_duplicates (vectorize : List Str → Except Str (Nat → Nat → ℚ))
    (articles : List Article) (threshold : ℚ) : RemoveDupResult :=
  if articles = [] then
    { articles := []
      removed_articles := []
      deduplication_stats :=
        { original_count := 0, final_count := 0, duplicates_removed := 0
          duplicate_pairs_found := 0 }
      duplicate_pairs := [] }
  else
    let info := find_duplicates vectorize articles threshold
    let parts := partitionArticles info.articles_to_remove (enumFrom 0 articles)
    { articles := parts.1
      removed_articles := parts.2
      deduplication_stats :=
        { original_count := articles.length
          final_count := parts.1.length
          duplicates_removed := articles.length - parts.1.length
          duplicate_pairs_found := info.duplicate_pairs.length }
      duplicate_pairs := info.duplicate_pairs }

/-! ## Helper lemmas about the pair loop -/

/-- The removal index chosen by the loop body for a pair above threshold
(deduplicator.py lines 94-97). -/
def loserIdx (articles : List Article) (i j : Nat) : Nat :=
  if contentLen (nth articles i) ≥ contentLen (nth articles j) then j else i

lemma mem_pairsFrom (n : Nat) :
    ∀ (l : List Nat) (p : Nat × Nat), p ∈ pairsFrom n l ↔ p.1 ∈ l ∧ p.1 < p.2 ∧ p.2 < n := by
  intro l
  induction l with
  | nil => intro p; simp [pairsFrom]
  | cons i rest ih =>
    intro p
    obtain ⟨p1, p2⟩ := p
    simp only [pairsFrom, List.mem_append, List.mem_map, List.mem_filter, List.mem_range,
      List.mem_cons, ih, Prod.mk.injEq, decide_eq_true_eq]
    constructor
    · rintro (⟨j, ⟨hj, hij⟩, rfl, rfl⟩ | ⟨h1, h2, h3⟩)
      · exact ⟨Or.inl rfl, hij, hj⟩
      · exact ⟨Or.inr h1, h2, h3⟩
    · rintro ⟨h1 | h1, h2, h3⟩
      · subst h1; exact Or.inl ⟨p2, ⟨h3, h2⟩, rfl, rfl⟩
      · exact Or.inr ⟨h1, h2, h3⟩

lemma mem_pairIndices {n i j : Nat} : (i, j) ∈ pairIndices n ↔ i < j ∧ j < n := by
  constructor
  · intro h
    rcases (mem_pairsFrom n (List.range n) (i, j)).1 h with ⟨_, h2, h3⟩
    exact ⟨h2, h3⟩
  · intro ⟨h1, h2⟩
    exact (mem_pairsFrom n (List.range n) (i, j)).2
      ⟨List.mem_range.2 (h1.trans h2), h1, h2⟩

lemma dupStep_grow (A : List Article) (t : ℚ) (sim : Nat → Nat → ℚ)
    (acc : List DuplicatePair × Finset Nat) (p : Nat × Nat) :
    acc.2 ⊆ (dupStep A t sim acc p).2 := by
  unfold dupStep
  split
  · exact Finset.subset_insert _ _
  · exact subset_rfl

lemma dupStep_of_gt (A : List Article) (t : ℚ) (sim : Nat → Nat → ℚ)
    (acc : List DuplicatePair × Finset Nat) (p : Nat × Nat) (h : sim p.1 p.2 > t) :
    (dupStep A t sim acc p).2 = insert (loserIdx A p.1 p.2) acc.2 := by
  simp [dupStep, loserIdx, if_pos h]

lemma subset_foldl_dupStep (A : List Article) (t : ℚ) (sim : Nat → Nat → ℚ) :
    ∀ (ps : List (Nat × Nat)) (acc : List DuplicatePair × Finset Nat),
      acc.2 ⊆ (ps.foldl (dupStep A t sim) acc).2 := by
  intro ps
  induction ps with
  | nil => intro acc; simp
  | cons p ps ih =>
    intro acc
    exact (dupStep_grow A t sim acc p).trans (ih (dupStep A t sim acc p))

lemma mem_foldl_dupStep (A : List Article) (t : ℚ) (sim : Nat → Nat → ℚ)
    (i j : Nat) (hsim : sim i j > t) :
    ∀ (ps : List (Nat × Nat)) (acc : List DuplicatePair × Finset Nat),
      (i, j) ∈ ps → loserIdx A i j ∈ (ps.foldl (dupStep A t sim) acc).2 := by
  intro ps
  induction ps with
  | nil => intro acc h; simp at h
  | cons p ps ih =>
    intro acc h
    rw [List.foldl_cons]
    rcases List.mem_cons.1 h with h | h
    · subst h
      apply subset_foldl_dupStep A t sim ps (dupStep A t sim acc (i, j))
      rw [dupStep_of_gt A t sim acc (i, j) hsim]
      exact Finset.mem_insert_self _ _
    · exact ih _ h

lemma foldl_dupStep_mono (A : List Article) (sim : Nat → Nat → ℚ)
    (t1 t2 : ℚ) (h12 : t1 ≤ t2) :
    ∀ (ps : List (Nat × Nat)) (acc acc' : List DuplicatePair × Finset Nat),
      acc.2 ⊆ acc'.2 →
      (ps.foldl (dupStep A t2 sim) acc).2 ⊆ (ps.foldl (dupStep A t1 sim) acc').2 := by
  intro ps
  induction ps with
  | nil => intro acc acc' h; simpa using h
  | cons p ps ih =>
    intro acc acc' h
    apply ih
    by_cases hp : sim p.1 p.2 > t2
    · rw [dupStep_of_gt A t2 sim acc p hp,
        dupStep_of_gt A t1 sim acc' p (lt_of_le_of_lt h12 hp)]
      exact Finset.insert_subset_insert _ h
    · have : dupStep A t2 sim acc p = acc := by simp [dupStep, if_neg hp]
      rw [this]
      exact h.trans (dupStep_grow A t1 sim acc' p)

lemma mem_foldl_dupStep_src (A : List Article) (t : ℚ) (sim : Nat → Nat → ℚ) :
    ∀ (ps : List (Nat × Nat)) (acc : List DuplicatePair × Finset Nat) (x : Nat),
      x ∈ (ps.foldl (dupStep A t sim) acc).2 →
      x ∈ acc.2 ∨ ∃ i j, (i, j) ∈ ps ∧ sim i j > t ∧ x = loserIdx A i j := by
  intro ps
  induction ps with
  | nil => intro acc x h; exact Or.inl (by simpa using h)
  | cons p ps ih =>
    intro acc x h
    rcases ih (dupStep A t sim acc p) x h with h1 | ⟨i, j, hmem, hgt, hx⟩
    · by_cases hp : sim p.1 p.2 > t
      · rw [dupStep_of_gt A t sim acc p hp] at h1
        rcases Finset.mem_insert.1 h1 with h1 | h1
        · exact Or.inr ⟨p.1, p.2, List.mem_cons_self _ _, hp, h1⟩
        · exact Or.inl h1
      · have : dupStep A t sim acc p = acc := by simp [dupStep, if_neg hp]
        rw [this] at h1
        exact Or.inl h1
    · exact Or.inr ⟨i, j, List.mem_cons_of_mem _ hmem, hgt, hx⟩

/-- Unfolding `find_duplicates` in the main (≥ 2 articles, vectorizer succeeded) case. -/
lemma find_duplicates_ok (sim : Nat → Nat → ℚ) (articles : List Article) (t : ℚ)
    (h2 : ¬ articles.length < 2) :
    find_duplicates (fun _ => .ok sim) articles t =
      { duplicate_pairs := ((pairIndices articles.length).foldl (dupStep articles t sim) ([], ∅)).1
        articles_to_remove := ((pairIndices articles.length).foldl (dupStep articles t sim) ([], ∅)).2
        stats := { total_articles := articles.length
                   duplicate_pairs_found :=
                     ((pairIndices articles.length).foldl (dupStep articles t sim) ([], ∅)).1.length
                   articles_to_remove_count :=
                     ((pairIndices articles.length).foldl (dupStep articles t sim) ([], ∅)).2.card } } := by
  simp [find_duplicates, if_neg h2]

/-- C1: For every batch, every similarity matrix and every pair `(i, j)` with `i < j`
whose similarity score strictly exceeds the threshold, `find_duplicates` adds to
the removal set the article whose `full_text` is strictly shorter, and when the
two `full_text` lengths are equal it adds the higher index `j` (the pair's own
decision keeps article `i`). -/
theorem find_duplicates_tie_break (articles : List Article) (t : ℚ)
    (sim : Nat → Nat → ℚ) (i j : Nat) (hij : i < j) (hj : j < articles.length)
    (hsim : sim i j > t) :
    (contentLen (nth articles i) < contentLen (nth articles j) →
      i ∈ (find_duplicates (fun _ => .ok sim) articles t).articles_to_remove) ∧
    (contentLen (nth articles j) < contentLen (nth articles i) →
      j ∈ (find_duplicates (fun _ => .ok sim) articles t).articles_to_remove) ∧
    (contentLen (nth articles i) = contentLen (nth articles j) →
      j ∈ (find_duplicates (fun _ => .ok sim) articles t).articles_to_remove) := by
  have h2 : ¬ articles.length < 2 := by omega
  rw [find_duplicates_ok sim articles t h2]
  have hmem : (i, j) ∈ pairIndices articles.length := mem_pairIndices.2 ⟨hij, hj⟩
  have hbase := mem_foldl_dupStep articles t sim i j hsim (pairIndices articles.length)
    ([], ∅) hmem
  refine ⟨fun hlt => ?_, fun hlt => ?_, fun heq => ?_⟩
  · have : loserIdx articles i j = i := by
      simp [loserIdx, if_neg (not_le.2 hlt)]
    rwa [this] at hbase
  · have : loserIdx articles i j = j := by
      simp [loserIdx, if_pos (le_of_lt hlt)]
    rwa [this] at hbase
  · have : loserIdx articles i j = j := by
      simp [loserIdx, if_pos (le_of_eq heq.symm)]
    rwa [this] at hbase

/-- C2: For a fixed batch and a fixed vectorizer outcome, raising the similarity
threshold never enlarges the removal set: with `t1 ≤ t2` the removal set at
threshold `t2` is a subset of the removal set at threshold `t1`, so its size is
no larger. -/
theorem find_duplicates_threshold_mono
    (vectorize : List Str → Except Str (Nat → Nat → ℚ))
    (articles : List Article) (t1 t2 : ℚ) (h12 : t1 ≤ t2) :
    (find_duplicates vectorize articles t2).articles_to_remove ⊆
      (find_duplicates vectorize articles t1).articles_to_remove ∧
    (find_duplicates vectorize articles t2).articles_to_remove.card ≤
      (find_duplicates vectorize articles t1).articles_to_remove.card := by
  have hsub : (find_duplicates vectorize articles t2).articles_to_remove ⊆
      (find_duplicates vectorize articles t1).articles_to_remove := by
    by_cases h2 : articles.length < 2
    · simp [find_duplicates, if_pos h2]
    · cases hv : vectorize (comparisonTexts articles) with
      | error e => simp [find_duplicates, if_neg h2, hv]
      | ok sim =>
        simp only [find_duplicates, if_neg h2, hv]
        exact foldl_dupStep_mono articles sim t1 t2 h12 _ _ _ subset_rfl
  exact ⟨hsub, Finset.card_le_card hsub⟩

theorem find_duplicates_tie_break_witness :
    ((1:ℚ) > 0) ∧
    (contentLen (nth [{ full_text := some (str "aaaa") },
        { full_text := some (str "aa") }] 1) <
      contentLen (nth [{ full_text := some (str "aaaa") },
        { full_text := some (str "aa") }] 0) →
      1 ∈ (find_duplicates (fun _ => .ok (fun _ _ => 1))
        [{ full_text := some (str "aaaa") }, { full_text := some (str "aa") }]
        0).articles_to_remove) := by
  refine ⟨by decide, ?_⟩
  exact (find_duplicates_tie_break
    [{ full_text := some (str "aaaa") }, { full_text := some (str "aa") }]
    0 (fun _ _ => 1) 0 1 (by decide) (by decide) (by decide)).2.1

theorem find_duplicates_threshold_mono_witness :
    ((0:ℚ) ≤ 1) ∧
    (find_duplicates (fun _ => .ok (fun _ _ => 1))
        [{ full_text := some (str "aaaa") }, { full_text := some (str "aa") }]
        1).articles_to_remove ⊆
      (find_duplicates (fun _ => .ok (fun _ _ => 1))
        [{ full_text := some (str "aaaa") }, { full_text := some (str "aa") }]
        0).articles_to_remove := by
  refine ⟨by decide, ?_⟩
  exact (find_duplicates_threshold_mono (fun _ => .ok (fun _ _ => 1))
    [{ full_text := some (str "aaaa") }, { full_text := some (str "aa") }]
    0 1 (by decide)).1

/-! ## Invariants of `remove_duplicates` (claims C9 and C10) -/

/-- The lowest index among articles of maximal `full_text` length: the head is kept
unless some later article has strictly more content. -/
def keeperIdx : List Article → Nat
  | [] => 0
  | a :: rest =>
    if contentLen (nth rest (keeperIdx rest)) > contentLen a then keeperIdx rest + 1 else 0

@[simp] lemma nth_nil (i : Nat) : nth [] i = {} := by cases i <;> rfl

@[simp] lemma nth_cons_zero (a : Article) (l : List Article) : nth (a :: l) 0 = a := rfl

@[simp] lemma nth_cons_succ (a : Article) (l : List Article) (i : Nat) :
    nth (a :: l) (i + 1) = nth l i := rfl

lemma contentLen_le_keeper : ∀ (l : List Article) (i : Nat),
    contentLen (nth l i) ≤ contentLen (nth l (keeperIdx l)) := by
  intro l
  induction l with
  | nil => intro i; simp
  | cons a rest ih =>
    intro i
    by_cases hk : contentLen (nth rest (keeperIdx rest)) > contentLen a
    · simp only [keeperIdx, if_pos hk, nth_cons_succ]
      cases i with
      | zero => exact le_of_lt hk
      | succ i => simpa using ih i
    · simp only [keeperIdx, if_neg hk, nth_cons_zero]
      cases i with
      | zero => exact le_rfl
      | succ i => simpa using (ih i).trans (not_lt.1 hk)

lemma contentLen_lt_keeper : ∀ (l : List Article) (i : Nat),
    i < keeperIdx l → contentLen (nth l i) < contentLen (nth l (keeperIdx l)) := by
  intro l
  induction l with
  | nil => intro i h; simp [keeperIdx] at h
  | cons a rest ih =>
    intro i h
    by_cases hk : contentLen (nth rest (keeperIdx rest)) > contentLen a
    · simp only [keeperIdx, if_pos hk] at h ⊢
      cases i with
      | zero => simpa using hk
      | succ i => simpa using ih i (by omega)
    · simp [keeperIdx, if_neg hk] at h

lemma keeperIdx_lt_length : ∀ (l : List Article), l ≠ [] → keeperIdx l < l.length := by
  intro l
  induction l with
  | nil => intro h; exact absurd rfl h
  | cons a rest ih =>
    intro _
    by_cases hk : contentLen (nth rest (keeperIdx rest)) > contentLen a
    · have hrest : rest ≠ [] := by
        intro he
        rw [he] at hk
        simp [contentLen] at hk
      simp only [keeperIdx, if_pos hk, List.length_cons]
      exact Nat.succ_lt_succ (ih hrest)
    · simp [keeperIdx, if_neg hk]

/-- The keeper index never equals the loser of an in-range pair, whatever the pair. -/
lemma keeperIdx_ne_loser (articles : List Article) (i j : Nat) (hij : i < j) :
    loserIdx articles i j ≠ keeperIdx articles := by
  unfold loserIdx
  split
  · next hge =>
    intro hj
    subst hj
    have := contentLen_lt_keeper articles i hij
    omega
  · next hlt =>
    intro hi
    subst hi
    have := contentLen_le_keeper articles j
    omega

/-- Every element of the computed removal set is the loser of some in-range pair. -/
lemma mem_articles_to_remove (vectorize : List Str → Except Str (Nat → Nat → ℚ))
    (articles : List Article) (t : ℚ) (x : Nat)
    (hx : x ∈ (find_duplicates vectorize articles t).articles_to_remove) :
    ∃ i j, i < j ∧ j < articles.length ∧ x = loserIdx articles i j := by
  by_cases h2 : articles.length < 2
  · simp [find_duplicates, if_pos h2] at hx
  · cases hv : vectorize (comparisonTexts articles) with
    | error e => simp [find_duplicates, if_neg h2, hv] at hx
    | ok sim =>
      simp only [find_duplicates, if_neg h2, hv] at hx
      rcases mem_foldl_dupStep_src articles t sim (pairIndices articles.length) ([], ∅) x hx
        with h | ⟨i, j, hmem, _, hx⟩
      · simp at h
      · rcases mem_pairIndices.1 hmem with ⟨hij, hj⟩
        exact ⟨i, j, hij, hj, hx⟩

lemma keeper_not_removed (vectorize : List Str → Except Str (Nat → Nat → ℚ))
    (articles : List Article) (t : ℚ) :
    keeperIdx articles ∉ (find_duplicates vectorize articles t).articles_to_remove := by
  intro hmem
  rcases mem_articles_to_remove vectorize articles t _ hmem with ⟨i, j, hij, _, hx⟩
  exact keeperIdx_ne_loser articles i j hij hx.symm

/-! Characterization of the partition loop. -/

lemma partitionArticles_fst (S : Finset Nat) :
    ∀ (ps : List (Nat × Article)),
      (partitionArticles S ps).1 = (ps.filter (fun p => decide (p.1 ∉ S))).map Prod.snd := by
  intro ps
  induction ps with
  | nil => rfl
  | cons p rest ih =>
    obtain ⟨i, a⟩ := p
    by_cases hi : i ∈ S
    · simp [partitionArticles, ih, hi]
    · simp [partitionArticles, ih, hi]

lemma partitionArticles_snd (S : Finset Nat) :
    ∀ (ps : List (Nat × Article)),
      (partitionArticles S ps).2 = (ps.filter (fun p => decide (p.1 ∈ S))).map
        (fun p => { article := p.2, removal_reason := str "duplicate_content",
                    original_index := p.1 : RemovedArticle }) := by
  intro ps
  induction ps with
  | nil => rfl
  | cons p rest ih =>
    obtain ⟨i, a⟩ := p
    by_cases hi : i ∈ S
    · simp [partitionArticles, ih, hi]
    · simp [partitionArticles, ih, hi]

lemma enumFrom_eq_map : ∀ (l : List Article) (i : Nat),
    enumFrom i l = (List.range l.length).map (fun k => (k + i, nth l k)) := by
  intro l
  induction l with
  | nil => intro i; rfl
  | cons a rest ih =>
    intro i
    rw [List.length_cons, List.range_succ_eq_map]
    simp only [enumFrom, List.map_cons, List.map_map, ih (i + 1)]
    refine congrArg₂ _ (by simp) ?_
    apply List.map_congr_left
    intro k _
    simp only [Function.comp]
    refine congrArg₂ _ (by omega) rfl

lemma mem_enumFrom (l : List Article) (k : Nat) (hk : k < l.length) :
    (k, nth l k) ∈ enumFrom 0 l := by
  rw [enumFrom_eq_map]
  exact List.mem_map.2 ⟨k, List.mem_range.2 hk, by simp⟩

/-- C9: For every non-empty batch and every threshold and vectorizer outcome,
`remove_duplicates` returns a non-empty deduplicated list: the lowest-index
article among those with maximal `full_text` length is never placed in the
removal set by any pair decision, so deduplication alone can never empty a
non-empty batch. -/
theorem remove_duplicates_nonempty
    (vectorize : List Str → Except Str (Nat → Nat → ℚ))
    (articles : List Article) (t : ℚ) (h : articles ≠ []) :
    (remove_duplicates vectorize articles t).articles ≠ [] ∧
    keeperIdx articles ∉ (find_duplicates vectorize articles t).articles_to_remove := by
  refine ⟨?_, keeper_not_removed vectorize articles t⟩
  have hk : keeperIdx articles < articles.length := keeperIdx_lt_length articles h
  have hmem : (keeperIdx articles, nth articles (keeperIdx articles)) ∈ enumFrom 0 articles :=
    mem_enumFrom articles _ hk
  simp only [remove_duplicates, if_neg h]
  rw [partitionArticles_fst]
  intro hempty
  have : nth articles (keeperIdx articles) ∈
      (List.map Prod.snd ((enumFrom 0 articles).filter
        (fun p => decide (p.1 ∉ (find_duplicates vectorize articles t).articles_to_remove)))) := by
    refine List.mem_map.2 ⟨(keeperIdx articles, nth articles (keeperIdx articles)), ?_, rfl⟩
    refine List.mem_filter.2 ⟨hmem, ?_⟩
    simp [keeper_not_removed vectorize articles t]
  rw [hempty] at this
  simp at this

theorem remove_duplicates_nonempty_witness :
    ([{ full_text := some (str "aaaa") }] : List Article) ≠ [] ∧
    (remove_duplicates (fun _ => .ok (fun _ _ => 1))
      [{ full_text := some (str "aaaa") }] 0).articles ≠ [] := by
  refine ⟨by decide, ?_⟩
  exact (remove_duplicates_nonempty (fun _ => .ok (fun _ _ => 1))
    [{ full_text := some (str "aaaa") }] 0 (by decide)).1

/-- C10: For every batch, threshold and vectorizer outcome, `remove_duplicates`
partitions its input: the returned `articles` list is exactly the input articles
at indices outside the removal set in their original order, `removed_articles`
holds exactly the articles at removed indices (tagged with the reason and their
original index), and `original_count = final_count + duplicates_removed` in the
returned statistics. -/
theorem remove_duplicates_partition
    (vectorize : List Str → Except Str (Nat → Nat → ℚ))
    (articles : List Article) (t : ℚ) :
    (remove_duplicates vectorize articles t).articles =
      ((List.range articles.length).filter
        (fun i => decide (i ∉ (find_duplicates vectorize articles t).articles_to_remove))).map
        (nth articles) ∧
    (remove_duplicates vectorize articles t).removed_articles =
      ((List.range articles.length).filter
        (fun i => decide (i ∈ (find_duplicates vectorize articles t).articles_to_remove))).map
        (fun i => { article := nth articles i, removal_reason := str "duplicate_content",
                    original_index := i : RemovedArticle }) ∧
    (remove_duplicates vectorize articles t).deduplication_stats.original_count =
      (remove_duplicates vectorize articles t).deduplication_stats.final_count +
        (remove_duplicates vectorize articles t).deduplication_stats.duplicates_removed := by
  by_cases h : articles = []
  · subst h
    refine ⟨rfl, rfl, rfl⟩
  · have hfst : (remove_duplicates vectorize articles t).articles =
        ((List.range articles.length).filter
          (fun i => decide (i ∉ (find_duplicates vectorize articles t).articles_to_remove))).map
          (nth articles) := by
      simp only [remove_duplicates, if_neg h]
      rw [partitionArticles_fst, enumFrom_eq_map, List.filter_map, List.map_map]
      refine congrArg₂ _ rfl ?_
      apply List.filter_congr
      intro k _
      simp [Function.comp]
    refine ⟨hfst, ?_, ?_⟩
    · simp only [remove_duplicates, if_neg h]
      rw [partitionArticles_snd, enumFrom_eq_map, List.filter_map, List.map_map]
      refine congrArg₂ _ rfl ?_
      apply List.filter_congr
      intro k _
      simp [Function.comp]
    · have hle : (remove_duplicates vectorize articles t).deduplication_stats.final_count ≤
          articles.length := by
        have : (remove_duplicates vectorize articles t).deduplication_stats.final_count =
            (remove_duplicates vectorize articles t).articles.length := by
          simp [remove_duplicates, if_neg h]
        rw [this, hfst, List.length_map]
        calc ((List.range articles.length).filter _).length
            ≤ (List.range articles.length).length := List.length_filter_le _ _
          _ = articles.length := List.length_range _
      simp only [remove_duplicates, if_neg h] at hle ⊢
      omega

/-! ## Claims C4 and C5: the comparison texts and the all-empty batch -/

/-- C4: For every article in a batch passed to the similarity scorer, the
comparison text used for vectorization equals the title repeated twice,
concatenated with `full_text` if it is non-empty, otherwise the article's
`ai_summary`, otherwise its raw feed `summary`, the whole string lower-cased
(`comparisonTextSpec` is written from the spec's words, `comparisonTexts` from
the code). -/
theorem comparisonTexts_eq_spec (articles : List Article) :
    comparisonTexts articles = articles.map comparisonTextSpec := by
  unfold comparisonTexts
  apply List.map_congr_left
  intro a _
  unfold comparisonText comparisonTextSpec
  cases h : a.ai_summary with
  | none => simp [Option.getD]
  | some s => simp [Option.getD]

lemma vocabularyTerms_nil (stopWords : List Str) :
    ∀ (texts : List Str), (∀ t ∈ texts, tokenize t = []) →
      vocabularyTerms stopWords texts = [] := by
  intro texts
  induction texts with
  | nil => intro _; rfl
  | cons t rest ih =>
    intro h
    have ht : tokenize t = [] := h t (List.mem_cons_self _ _)
    have hrest := ih (fun u hu => h u (List.mem_cons_of_mem _ hu))
    simp [vocabularyTerms, docTerms, ht, ngrams, hrest]

lemma comparisonText_blank (a : Article)
    (h1 : a.title.getD [] = []) (h2 : a.full_text.getD [] = [])
    (h3 : a.ai_summary.getD [] = []) (h4 : a.summary.getD [] = []) :
    comparisonText a = str "  " := by
  have hcontent : a.ai_summary.getD (a.summary.getD []) = [] := by
    cases ha : a.ai_summary with
    | none => simpa [Option.getD] using h4
    | some s => simpa [ha, Option.getD] using h3
  simp [comparisonText, h1, h2, hcontent]
  rfl

/-- C5 counterexample: on a two-article batch whose fields are all absent (so both
comparison texts are token-free), the modelled TF-IDF vectorization does not
produce a similarity value for the pair at all — `fit_transform` raises the
empty-vocabulary `ValueError` — contradicting the claim that "the similarity
between any pair is defined and equal to 0.0". -/
theorem all_empty_similarity_defined_counterexample :
    (tfidfVectorize [] (fun _ _ => 0) (comparisonTexts [{}, {}])).isOk = false ∧
    tfidfVectorize [] (fun _ _ => 0) (comparisonTexts [{}, {}]) =
      .error (str "empty vocabulary; perhaps the documents only contain stop words") := by
  constructor
  · rfl
  · rfl

/-- C5 (amended): When every article in the batch has empty (or absent) title,
full text, AI summary and raw summary, the TF-IDF vectorization step fails with
the empty-vocabulary error rather than producing similarity values; the
surrounding `try/except` catches it and `find_duplicates` returns an empty list
of duplicate pairs and an empty removal set (and, the model being exact
rationals on the success path, no NaN similarity is ever produced). -/
theorem find_duplicates_all_empty (stopWords : List Str) (sim : Nat → Nat → ℚ)
    (articles : List Article) (t : ℚ)
    (h : ∀ a ∈ articles, a.title.getD [] = [] ∧ a.full_text.getD [] = [] ∧
      a.ai_summary.getD [] = [] ∧ a.summary.getD [] = []) :
    (find_duplicates (tfidfVectorize stopWords sim) articles t).duplicate_pairs = [] ∧
    (find_duplicates (tfidfVectorize stopWords sim) articles t).articles_to_remove = ∅ := by
  by_cases h2 : articles.length < 2
  · simp [find_duplicates, if_pos h2]
  · have hvocab : vocabularyTerms stopWords (comparisonTexts articles) = [] := by
      apply vocabularyTerms_nil
      intro u hu
      rcases List.mem_map.1 hu with ⟨a, ha, rfl⟩
      rcases h a ha with ⟨h1', h2', h3', h4'⟩
      rw [comparisonText_blank a h1' h2' h3' h4']
      rfl
    have hv : tfidfVectorize stopWords sim (comparisonTexts articles) =
        .error (str "empty vocabulary; perhaps the documents only contain stop words") := by
      simp [tfidfVectorize, hvocab]
    simp [find_duplicates, if_neg h2, hv]

theorem find_duplicates_all_empty_witness :
    (∀ a ∈ ([{}, {}] : List Article), a.title.getD [] = [] ∧ a.full_text.getD [] = [] ∧
      a.ai_summary.getD [] = [] ∧ a.summary.getD [] = []) ∧
    (find_duplicates (tfidfVectorize [] (fun _ _ => 0)) [{}, {}] 0).duplicate_pairs = [] ∧
    (find_duplicates (tfidfVectorize [] (fun _ _ => 0)) [{}, {}] 0).articles_to_remove = ∅ := by
  refine ⟨by decide, ?_⟩
  exact find_duplicates_all_empty [] (fun _ _ => 0) [{}, {}] 0 (by decide)

/-! ## AI summarizer (ai_summarizer.py)

The OpenRouter client is external: a `SummarizerEnv` carries its availability flag
(`AISummarizer.api_available`, set from the `OPENROUTER_API_KEY` environment
variable) and the outcome of one chat-completion call (`.ok content` for a
successful response body, `.error` for any raised exception, including the
config import and `raise_for_status`). -/

structure SummarizerEnv where
  apiAvailable : Bool
  aiResponse : Str → Except Str Str

/-- Python `str.strip()`: drop whitespace from both ends. -/
def strip (s : Str) : Str :=
  ((s.dropWhile Char.isWhitespace).reverse.dropWhile Char.isWhitespace).reverse

/-- Python `text.split('. ')` (ai_summarizer.py line 140), specialized to the
two-character separator used there. -/
def splitSentencesAux : Str → Str → List Str
  | cur, [] => [cur.reverse]
  | cur, '.' :: ' ' :: rest => cur.reverse :: splitSentencesAux [] rest
  | cur, c :: rest => splitSentencesAux (c :: cur) rest

def splitSentences (s : Str) : List Str := splitSentencesAux [] s

/-- Python `'. '.join(parts)`. -/
def joinSep (sep : Str) : List Str → Str
  | [] => []
  | [x] => x
  | x :: rest => x ++ sep ++ joinSep sep rest

/-- The sentence-collecting loop of `_fallback_summary`
(ai_summarizer.py lines 143-150): stop at the first sentence that would push the
running character count past 200, stripping each collected sentence. -/
def collectParts : List Str → Nat → List Str
  | [], _ => []
  | s :: rest, charCount =>
    if charCount + s.length > 200 then []
    else strip s :: collectParts rest (charCount + s.length)

/-- `AISummarizer._fallback_summary` (ai_summarizer.py lines 136-163): an
extractive summary of the first sentences, a trailing period when missing, and
the literal fallback marker.  (The function's own `except` branch is dead in
this pure model: every operation in the `try` body is total.) -/
def fallbackSummary (text : Str) : Str :=
  let sentences := splitSentences text
  let parts := collectParts (sentences.take 5) 0
  let fb := joinSep (str ". ") parts
  let fb2 := if (str ".").isSuffixOf fb then fb else fb ++ str "."
  fb2 ++ str " [Extractive summary - AI summarization unavailable]"

/-- `AISummarizer.summarize` (ai_summarizer.py lines 54-94): fall back when the
client is unavailable or the call raises; on success return the response content
stripped. -/
def summarize (env : SummarizerEnv) (text : Str) : Str :=
  if env.apiAvailable = false then fallbackSummary text
  else
    match env.aiResponse text with
    | .ok content => strip content
    | .error _ => fallbackSummary text

/-- The per-article body of `process_article_summaries`
(ai_summarizer.py lines 330-343): summarize the full text when present,
otherwise fall back to the RSS summary (or the literal placeholder when that key
is absent too); store the result under `ai_summary`. -/
def summarizeArticle (env : SummarizerEnv) (article : Article) : Article :=
  { article with
    ai_summary := some (
      if article.full_text.getD [] ≠ [] then summarize env (article.full_text.getD [])
      else article.summary.getD (str "No content available for summarization")) }

/-- `process_article_summaries(articles)` (ai_summarizer.py lines 316-347). -/
def process_article_summaries (env : SummarizerEnv) (articles : List Article) : List Article :=
  articles.map (summarizeArticle env)

/-- Python `pat in s` (substring containment). -/
def hasSub (pat : Str) : Str → Bool
  | [] => pat.isPrefixOf []
  | c :: rest => pat.isPrefixOf (c :: rest) || hasSub pat rest

/-- The substring the pipeline greps for to tell AI summaries from fallback ones
(news_pipeline.py line 152). -/
def aiUnavailableMarker : Str := str "AI summarization unavailable"

/-- The per-article condition of the pipeline's AI-summary count
(news_pipeline.py lines 151-153): `ai_summary` non-blank after stripping and not
containing the fallback marker. -/
def aiSummaryCountedStr (s : Str) : Bool :=
  !(strip s).isEmpty && !hasSub aiUnavailableMarker s

def aiSummaryCounted (a : Article) : Bool := aiSummaryCountedStr (a.ai_summary.getD [])

/-- `ai_summaries` as computed in `NewsProcessor._generate_summaries`
(news_pipeline.py lines 151-155). -/
def countAiSummaries (articles : List Article) : Nat :=
  (articles.filter aiSummaryCounted).length

/-- Written from the claim's words (C8): an article "whose primary (AI)
summarization failed or returned Failure" — it had full text to summarize and
the OpenRouter call was unavailable or raised. -/
def primaryFailed (env : SummarizerEnv) (a : Article) : Bool :=
  decide (a.full_text.getD [] ≠ []) &&
    (!env.apiAvailable || !(env.aiResponse (a.full_text.getD [])).isOk)

def countPrimaryFailed (env : SummarizerEnv) (articles : List Article) : Nat :=
  (articles.filter (primaryFailed env)).length

lemma hasSub_append_right (pat l2 : Str) (h : hasSub pat l2 = true) :
    ∀ l1 : Str, hasSub pat (l1 ++ l2) = true := by
  intro l1
  induction l1 with
  | nil => simpa using h
  | cons c rest ih =>
    show (pat.isPrefixOf (c :: (rest ++ l2)) || hasSub pat (rest ++ l2)) = true
    rw [ih]
    simp

lemma marker_in_fallbackSummary (text : Str) :
    hasSub aiUnavailableMarker (fallbackSummary text) = true := by
  unfold fallbackSummary
  apply hasSub_append_right
  decide

/-- A failed or unavailable primary summarization stores a summary containing the
fallback marker, which the pipeline's count excludes. -/
lemma counted_of_summarizeArticle (env : SummarizerEnv) (a : Article)
    (hft : a.full_text.getD [] ≠ [])
    (hok : ∀ t s, env.aiResponse t = .ok s → aiSummaryCountedStr (strip s) = true) :
    aiSummaryCounted (summarizeArticle env a) = !primaryFailed env a := by
  have hsum : (summarizeArticle env a).ai_summary.getD [] = summarize env (a.full_text.getD []) := by
    simp [summarizeArticle, if_pos hft]
  unfold aiSummaryCounted
  rw [hsum]
  unfold primaryFailed
  cases hav : env.apiAvailable with
  | false =>
    have : summarize env (a.full_text.getD []) = fallbackSummary (a.full_text.getD []) := by
      simp [summarize, hav]
    rw [this]
    simp [aiSummaryCountedStr, marker_in_fallbackSummary, hft]
  | true =>
    cases hr : env.aiResponse (a.full_text.getD []) with
    | ok s =>
      have : summarize env (a.full_text.getD []) = strip s := by
        simp [summarize, hav, hr]
      rw [this, hok _ s hr]
      simp [hft, hr, Except.isOk, Except.toBool]
    | error e =>
      have : summarize env (a.full_text.getD []) = fallbackSummary (a.full_text.getD []) := by
        simp [summarize, hav, hr]
      rw [this]
      simp [aiSummaryCountedStr, marker_in_fallbackSummary, hft, hr, Except.isOk, Except.toBool]

/-- C8 counterexample: one article with full text, an available AI client whose
call succeeds but returns a blank summary.  The run records
`ai_summaries_generated = 0`, so the derived fallback count
(`articles_count - ai_summaries_generated`) is `1`, yet no article's primary
summarization failed (and none used the fallback path) — refuting the claimed
equality. -/
theorem fallback_count_counterexample :
    ([{ full_text := some (str "Breaking news story") }] : List Article).length -
      countAiSummaries (process_article_summaries ⟨true, fun _ => .ok []⟩
        [{ full_text := some (str "Breaking news story") }]) ≠
      countPrimaryFailed ⟨true, fun _ => .ok []⟩
        [{ full_text := some (str "Breaking news story") }] := by
  decide

/-- C8 (amended): For every run in which each article carries non-empty
`full_text` and each successful primary summary is, after stripping, non-blank
and free of the fallback marker, `articles_count - ai_summaries_generated`
equals exactly the number of articles whose primary (AI) summarization failed
or was unavailable; equivalently the AI-counted and primary-failed articles
partition the batch.  (The unamended claim fails when a successful primary
response is blank, or when an article without full text is counted after
falling back to its RSS summary.) -/
theorem fallback_count_exact (env : SummarizerEnv) (articles : List Article)
    (hft : ∀ a ∈ articles, a.full_text.getD [] ≠ [])
    (hok : ∀ t s, env.aiResponse t = .ok s → aiSummaryCountedStr (strip s) = true) :
    articles.length - countAiSummaries (process_article_summaries env articles) =
      countPrimaryFailed env articles ∧
    countAiSummaries (process_article_summaries env articles) +
      countPrimaryFailed env articles = articles.length := by
  have hcount : countAiSummaries (process_article_summaries env articles) =
      (articles.filter (fun a => !primaryFailed env a)).length := by
    unfold countAiSummaries process_article_summaries
    rw [List.filter_map]
    rw [List.length_map]
    refine congrArg _ (List.filter_congr ?_)
    intro a ha
    simp only [Function.comp]
    exact counted_of_summarizeArticle env a (hft a ha) hok
  have hsplit : (articles.filter (primaryFailed env)).length +
      (articles.filter (fun a => !primaryFailed env a)).length = articles.length := by
    exact (List.length_eq_length_filter_add (primaryFailed env)).symm
  unfold countPrimaryFailed
  omega

theorem fallback_count_exact_witness :
    ([{ full_text := some (str "First sentence. Second sentence.") }] : List Article).length -
      countAiSummaries (process_article_summaries ⟨false, fun _ => .error (str "no key")⟩
        [{ full_text := some (str "First sentence. Second sentence.") }]) =
      countPrimaryFailed ⟨false, fun _ => .error (str "no key")⟩
        [{ full_text := some (str "First sentence. Second sentence.") }] :=
  (fallback_count_exact ⟨false, fun _ => .error (str "no key")⟩
    [{ full_text := some (str "First sentence. Second sentence.") }]
    (by decide) (fun t s h => Except.noConfusion h)).1

/-! ## Pipeline orchestrator (news_pipeline.py)

`NewsProcessor.run_daily_pipeline` sequences the stages; each per-stage helper
wraps its external call in `try/except`, appends to `self.stats['errors']` on
failure and degrades instead of aborting.  A `PipelineEnv` carries the outcome
of every external call of one run.  The wall-clock statistics
(`start_time`, `end_time`, `processing_duration`) and the result `timestamp`
are omitted: they are real time, not modelled.  Helpers whose `try` body is
pure in this model (`_deduplicate_articles`, `_generate_summaries`) have dead
`except` branches, which are therefore not modelled. -/

/-- The result dict of `send_daily_podcast` / the text-only branch of
`_send_telegram` (the `details` sub-dict is not modelled). -/
structure TelegramResult where
  podcast_sent : Bool
  text_sent : Bool
  primary_method : Str
  error : Option Str := none
  deriving DecidableEq, Repr

/-- The result dict of `generate_podcast`, restricted to the keys the pipeline
reads (`tts_generator.py` is external to the core). -/
structure PodcastResult where
  success : Bool
  local_file : Str
  cloud_success : Bool := false
  cloud_public_url : Str := []
  deriving DecidableEq, Repr

/-- `self.stats` of `NewsProcessor` (news_pipeline.py lines 25-37), minus the
wall-clock fields. -/
structure RunStats where
  articles_fetched : Nat := 0
  articles_with_content : Nat := 0
  articles_after_deduplication : Nat := 0
  duplicates_removed : Nat := 0
  ai_summaries_generated : Nat := 0
  podcast_created : Bool := false
  telegram_sent : Bool := false
  errors : List Str := []
  deriving DecidableEq, Repr

/-- The dict returned by `run_daily_pipeline`: `_finish_successfully` populates
`articles_processed`, `meta_summary`, `podcast` and `telegram_result`
(news_pipeline.py lines 285-321); `_finish_with_error` populates `error`
(lines 323-343).  `none` models an absent key. -/
structure RunResult where
  status : Str
  error : Option Str := none
  articles_processed : Option Nat := none
  meta_summary : Option Str := none
  podcast : Option PodcastResult := none
  telegram_result : Option TelegramResult := none
  statistics : RunStats
  deriving DecidableEq, Repr

/-- Outcomes of all external calls made during one pipeline run. -/
structure PipelineEnv where
  /-- `config.load_rss_sources()` + `fetch_all_sources(sources)`: the fetched
  articles, or the exception message if either raised. -/
  fetched : Except Str (List Article)
  /-- `extract_content_batch(articles)`. -/
  extractBatch : List Article → Except Str (List Article)
  /-- `self.config.DUPLICATE_THRESHOLD`. -/
  duplicateThreshold : ℚ
  /-- The scikit-learn vectorization boundary used by `remove_duplicates`. -/
  vectorize : List Str → Except Str (Nat → Nat → ℚ)
  /-- The OpenRouter client state used by `process_article_summaries`. -/
  summarizer : SummarizerEnv
  /-- `AISummarizer().generate_meta_summary(df, 'ai_summary')`. -/
  metaSummarize : List Article → Except Str Str
  /-- The date string used by the fallback meta-summary text. -/
  today : Str
  /-- `generate_podcast(...)`: `.ok none` models a `None` return. -/
  generatePodcast : Str → Except Str (Option PodcastResult)
  /-- `send_daily_podcast(local_file, meta_summary)`. -/
  sendPodcast : Str → Str → Except Str TelegramResult
  /-- `TelegramSender().send_text_summary_sync(meta_summary)`: the `success`
  flag of its result dict, or the exception message. -/
  sendTextSummary : Str → Except Str Bool

/-- `NewsProcessor._fetch_articles` (news_pipeline.py lines 83-99): on success
record `articles_fetched`; on exception append the error and return `[]`. -/
def fetchStage (env : PipelineEnv) (s : RunStats) : List Article × RunStats :=
  match env.fetched with
  | .ok arts => (arts, { s with articles_fetched := arts.length })
  | .error e => ([], { s with errors := s.errors ++ [str "RSS fetching failed: " ++ e] })

/-- `NewsProcessor._extract_content` (news_pipeline.py lines 101-121): on success
count the articles whose `extraction_successful` flag is set; on exception
append the error and return the original batch. -/
def extractStage (env : PipelineEnv) (articles : List Article) (s : RunStats) :
    List Article × RunStats :=
  match env.extractBatch articles with
  | .ok arts =>
    (arts, { s with articles_with_content :=
      (arts.filter (fun a => a.extraction_successful.getD false)).length })
  | .error e =>
    (articles, { s with errors := s.errors ++ [str "Content extraction failed: " ++ e] })

/-- `NewsProcessor._deduplicate_articles` (news_pipeline.py lines 123-144):
`remove_duplicates` is total here, so only the `try` path is live. -/
def dedupStage (env : PipelineEnv) (articles : List Article) (s : RunStats) :
    List Article × RunStats :=
  let r := remove_duplicates env.vectorize articles env.duplicateThreshold
  (r.articles,
    { s with articles_after_deduplication := r.articles.length
             duplicates_removed := r.deduplication_stats.duplicates_removed })

/-- `NewsProcessor._generate_summaries` (news_pipeline.py lines 146-168):
`process_article_summaries` is total here, so only the `try` path is live. -/
def summariesStage (env : PipelineEnv) (articles : List Article) (s : RunStats) :
    List Article × RunStats :=
  let arts := process_article_summaries env.summarizer articles
  (arts, { s with ai_summaries_generated := countAiSummaries arts })

/-- The fallback meta-summary text of `_create_meta_summary`
(news_pipeline.py line 192). -/
def fallbackMetaText (env : PipelineEnv) (articles : List Article) : Str :=
  str "Daily news summary for " ++ env.today ++ str " - " ++
    (toString articles.length).data ++ str " articles processed."

/-- `NewsProcessor._create_meta_summary` (news_pipeline.py lines 170-193). -/
def metaStage (env : PipelineEnv) (articles : List Article) (s : RunStats) :
    Str × RunStats :=
  match env.metaSummarize articles with
  | .ok m => (m, s)
  | .error e =>
    (fallbackMetaText env articles,
      { s with errors := s.errors ++ [str "Meta-summary creation failed: " ++ e] })

/-- `NewsProcessor._generate_podcast` (news_pipeline.py lines 195-230): set
`podcast_created` only when the result dict exists and has `success` truthy;
otherwise (falsy result, or exception) append an error. -/
def podcastStage (env : PipelineEnv) (meta : Str) (s : RunStats) :
    Option PodcastResult × RunStats :=
  match env.generatePodcast meta with
  | .ok (some p) =>
    if p.success then (some p, { s with podcast_created := true })
    else (some p, { s with errors := s.errors ++ [str "Podcast generation failed"] })
  | .ok none => (none, { s with errors := s.errors ++ [str "Podcast generation failed"] })
  | .error e =>
    (none, { s with errors := s.errors ++ [str "Podcast generation failed: " ++ e] })

/-- The text-only branch of `_send_telegram` (news_pipeline.py lines 255-264). -/
def textOnlySend (env : PipelineEnv) (meta : Str) : Except Str TelegramResult :=
  match env.sendTextSummary meta with
  | .ok ok =>
    .ok { podcast_sent := false, text_sent := ok
          primary_method := if ok then str "text" else str "failed" }
  | .error e => .error e

/-- `NewsProcessor._send_telegram` (news_pipeline.py lines 232-283): send the
podcast file when one was successfully generated (both the cloud and the local
sub-branches call `send_daily_podcast(local_file, meta_summary)`), otherwise
send a text-only summary; set `telegram_sent` iff the result reports
`podcast_sent` or `text_sent`; on exception return the failed result dict and
append the error. -/
def telegramAttempt (env : PipelineEnv) (podcast : Option PodcastResult) (meta : Str) :
    Except Str TelegramResult :=
  match podcast with
  | some p => if p.success then env.sendPodcast p.local_file meta else textOnlySend env meta
  | none => textOnlySend env meta

def telegramStage (env : PipelineEnv) (podcast : Option PodcastResult) (meta : Str)
    (s : RunStats) : TelegramResult × RunStats :=
  match telegramAttempt env podcast meta with
  | .ok tr =>
    if tr.podcast_sent || tr.text_sent then (tr, { s with telegram_sent := true })
    else (tr, s)
  | .error e =>
    ({ podcast_sent := false, text_sent := false, primary_method := str "failed"
       error := some e },
      { s with errors := s.errors ++ [str "Telegram sending failed: " ++ e] })

/-- `NewsProcessor._finish_successfully` (news_pipeline.py lines 285-321),
minus the wall-clock fields. -/
def finishSuccessfully (articles : List Article) (meta : Str)
    (podcast : Option PodcastResult) (tr : TelegramResult) (s : RunStats) : RunResult :=
  { status := str "success"
    articles_processed := some articles.length
    meta_summary := some meta
    podcast := podcast
    telegram_result := some tr
    statistics := s }

/-- `NewsProcessor._finish_with_error` (news_pipeline.py lines 323-343),
minus the wall-clock fields. -/
def finishWithError (msg : Str) (s : RunStats) : RunResult :=
  { status := str "error"
    error := some msg
    statistics := { s with errors := s.errors ++ [msg] } }

/-- The `self.stats` dict as initialized in `NewsProcessor.__init__`. -/
def initialStats : RunStats := {}

/-! The successive intermediate values of one run, named so that the claims can
refer to them.  `pipeP1 … pipeP7` are the values the `let`-chain of
`run_daily_pipeline` produces when no fatal early return fires; since every
stage is pure, naming them as separate definitions is an equivalent reading of
the sequential method body. -/

def pipeP1 (env : PipelineEnv) : List Article × RunStats := fetchStage env initialStats

def pipeP2 (env : PipelineEnv) : List Article × RunStats :=
  extractStage env (pipeP1 env).1 (pipeP1 env).2

def pipeP3 (env : PipelineEnv) : List Article × RunStats :=
  dedupStage env (pipeP2 env).1 (pipeP2 env).2

def pipeP4 (env : PipelineEnv) : List Article × RunStats :=
  summariesStage env (pipeP3 env).1 (pipeP3 env).2

def pipeP5 (env : PipelineEnv) : Str × RunStats :=
  metaStage env (pipeP4 env).1 (pipeP4 env).2

def pipeP6 (env : PipelineEnv) : Option PodcastResult × RunStats :=
  podcastStage env (pipeP5 env).1 (pipeP5 env).2

def pipeP7 (env : PipelineEnv) : TelegramResult × RunStats :=
  telegramStage env (pipeP6 env).1 (pipeP5 env).1 (pipeP6 env).2

/-- `NewsProcessor.run_daily_pipeline` (news_pipeline.py lines 39-81): fetch,
then the fatal empty-fetch check, extraction, deduplication, the fatal
empty-post-dedup check, summaries, meta-summary, podcast, telegram, finalize.
The outer `except` (lines 79-81) is dead in this model because every helper
catches its own exceptions. -/
def run_daily_pipeline (env : PipelineEnv) : RunResult :=
  if (pipeP1 env).1 = [] then
    finishWithError (str "No articles fetched from RSS feeds") (pipeP1 env).2
  else if (pipeP3 env).1 = [] then
    finishWithError (str "No articles remaining after deduplication") (pipeP3 env).2
  else
    finishSuccessfully (pipeP4 env).1 (pipeP5 env).1 (pipeP6 env).1 (pipeP7 env).1
      (pipeP7 env).2

/-! ## Stage statistics preservation lemmas -/

lemma fetchStage_pres (env : PipelineEnv) (s : RunStats) :
    (fetchStage env s).2.articles_with_content = s.articles_with_content ∧
    (fetchStage env s).2.articles_after_deduplication = s.articles_after_deduplication ∧
    (fetchStage env s).2.ai_summaries_generated = s.ai_summaries_generated ∧
    (fetchStage env s).2.podcast_created = s.podcast_created ∧
    (fetchStage env s).2.telegram_sent = s.telegram_sent := by
  cases henv : env.fetched <;> simp [fetchStage, henv]

lemma extractStage_pres (env : PipelineEnv) (articles : List Article) (s : RunStats) :
    (extractStage env articles s).2.articles_after_deduplication = s.articles_after_deduplication ∧
    (extractStage env articles s).2.ai_summaries_generated = s.ai_summaries_generated ∧
    (extractStage env articles s).2.podcast_created = s.podcast_created ∧
    (extractStage env articles s).2.telegram_sent = s.telegram_sent := by
  cases henv : env.extractBatch articles <;> simp [extractStage, henv]

lemma dedupStage_pres (env : PipelineEnv) (articles : List Article) (s : RunStats) :
    (dedupStage env articles s).2.ai_summaries_generated = s.ai_summaries_generated ∧
    (dedupStage env articles s).2.podcast_created = s.podcast_created ∧
    (dedupStage env articles s).2.telegram_sent = s.telegram_sent := by
  simp [dedupStage]

lemma dedupStage_count (env : PipelineEnv) (articles : List Article) (s : RunStats) :
    (dedupStage env articles s).2.articles_after_deduplication =
      (dedupStage env articles s).1.length := by
  simp [dedupStage]

lemma summariesStage_pres (env : PipelineEnv) (articles : List Article) (s : RunStats) :
    (summariesStage env articles s).2.podcast_created = s.podcast_created ∧
    (summariesStage env articles s).2.telegram_sent = s.telegram_sent := by
  simp [summariesStage]

lemma metaStage_pres (env : PipelineEnv) (articles : List Article) (s : RunStats) :
    (metaStage env articles s).2.podcast_created = s.podcast_created ∧
    (metaStage env articles s).2.telegram_sent = s.telegram_sent := by
  cases henv : env.metaSummarize articles <;> simp [metaStage, henv]

lemma podcastStage_pres (env : PipelineEnv) (meta : Str) (s : RunStats) :
    (podcastStage env meta s).2.telegram_sent = s.telegram_sent := by
  cases henv : env.generatePodcast meta with
  | ok o =>
    cases o with
    | none => simp [podcastStage, henv]
    | some p =>
      by_cases hp : p.success = true
      · simp [podcastStage, henv, hp]
      · simp [podcastStage, henv, hp]
  | error e => simp [podcastStage, henv]

lemma pipeP6_telegram_sent (env : PipelineEnv) :
    (pipeP6 env).2.telegram_sent = false := by
  rw [pipeP6, podcastStage_pres, pipeP5, (metaStage_pres _ _ _).2, pipeP4,
    (summariesStage_pres _ _ _).2, pipeP3, (dedupStage_pres _ _ _).2.2, pipeP2,
    (extractStage_pres _ _ _).2.2.2, pipeP1, (fetchStage_pres _ _).2.2.2.2]
  rfl

/-- C3: Whenever fetching yields an empty article list, `run_daily_pipeline`
returns a result with status `error`, the error message "No articles fetched
from RSS feeds", no `articles_processed` entry, and statistics showing zero
articles at every stage; no later stage (extraction, deduplication,
summarization, synthesis, delivery) has touched the statistics. -/
theorem run_pipeline_empty_fetch (env : PipelineEnv) (h : (pipeP1 env).1 = []) :
    (run_daily_pipeline env).status = str "error" ∧
    (run_daily_pipeline env).error = some (str "No articles fetched from RSS feeds") ∧
    (run_daily_pipeline env).articles_processed = none ∧
    (run_daily_pipeline env).statistics.articles_fetched = 0 ∧
    (run_daily_pipeline env).statistics.articles_with_content = 0 ∧
    (run_daily_pipeline env).statistics.articles_after_deduplication = 0 ∧
    (run_daily_pipeline env).statistics.ai_summaries_generated = 0 ∧
    (run_daily_pipeline env).statistics.podcast_created = false ∧
    (run_daily_pipeline env).statistics.telegram_sent = false := by
  have hstats : (pipeP1 env).2.articles_fetched = 0 ∧
      (pipeP1 env).2.articles_with_content = 0 ∧
      (pipeP1 env).2.articles_after_deduplication = 0 ∧
      (pipeP1 env).2.ai_summaries_generated = 0 ∧
      (pipeP1 env).2.podcast_created = false ∧
      (pipeP1 env).2.telegram_sent = false := by
    cases henv : env.fetched with
    | ok arts =>
      have harts : arts = [] := by simpa [pipeP1, fetchStage, henv] using h
      simp [pipeP1, fetchStage, henv, harts, initialStats]
    | error e => simp [pipeP1, fetchStage, henv, initialStats]
  simp only [run_daily_pipeline, if_pos h, finishWithError]
  exact ⟨by trivial, by trivial, by trivial, hstats.1, hstats.2.1, hstats.2.2.1,
    hstats.2.2.2.1, hstats.2.2.2.2.1, hstats.2.2.2.2.2⟩

/-- C7: Whenever the deduplicated batch is empty after the deduplication stage
(on a run that passed the fetch check), `run_daily_pipeline` terminates
immediately with status `error` and the message "No articles remaining after
deduplication"; summarization and later stages are not attempted — their
statistics stay at their initial values and the success payload is absent. -/
theorem run_pipeline_empty_postdedup (env : PipelineEnv)
    (h1 : (pipeP1 env).1 ≠ []) (h3 : (pipeP3 env).1 = []) :
    (run_daily_pipeline env).status = str "error" ∧
    (run_daily_pipeline env).error = some (str "No articles remaining after deduplication") ∧
    (run_daily_pipeline env).articles_processed = none ∧
    (run_daily_pipeline env).meta_summary = none ∧
    (run_daily_pipeline env).statistics.articles_after_deduplication = 0 ∧
    (run_daily_pipeline env).statistics.ai_summaries_generated = 0 ∧
    (run_daily_pipeline env).statistics.podcast_created = false ∧
    (run_daily_pipeline env).statistics.telegram_sent = false := by
  have hcount : (pipeP3 env).2.articles_after_deduplication = 0 := by
    rw [pipeP3, dedupStage_count, ← pipeP3, h3]
    rfl
  have hai : (pipeP3 env).2.ai_summaries_generated = 0 := by
    rw [pipeP3, (dedupStage_pres _ _ _).1, pipeP2, (extractStage_pres _ _ _).2.1,
      pipeP1, (fetchStage_pres _ _).2.2.1]
    rfl
  have hpod : (pipeP3 env).2.podcast_created = false := by
    rw [pipeP3, (dedupStage_pres _ _ _).2.1, pipeP2, (extractStage_pres _ _ _).2.2.1,
      pipeP1, (fetchStage_pres _ _).2.2.2.1]
    rfl
  have htel : (pipeP3 env).2.telegram_sent = false := by
    rw [pipeP3, (dedupStage_pres _ _ _).2.2, pipeP2, (extractStage_pres _ _ _).2.2.2,
      pipeP1, (fetchStage_pres _ _).2.2.2.2]
    rfl
  simp only [run_daily_pipeline, if_neg h1, if_pos h3, finishWithError]
  exact ⟨by trivial, by trivial, by trivial, by trivial, hcount, hai, hpod, htel⟩

/-- C6: For every run that passes the two fatal checks (non-empty fetch,
non-empty post-dedup batch), a delivery failure — the telegram result reporting
neither `podcast_sent` nor `text_sent` — leaves the final result status equal to
`success`; the failure is visible only in the statistics (`telegram_sent` stays
`false`), never as a run-level error status. -/
theorem run_pipeline_delivery_failure (env : PipelineEnv)
    (h1 : (pipeP1 env).1 ≠ []) (h3 : (pipeP3 env).1 ≠ [])
    (hd : (pipeP7 env).1.podcast_sent = false ∧ (pipeP7 env).1.text_sent = false) :
    (run_daily_pipeline env).status = str "success" ∧
    (run_daily_pipeline env).error = none ∧
    (run_daily_pipeline env).statistics.telegram_sent = false ∧
    (run_daily_pipeline env).telegram_result = some (pipeP7 env).1 := by
  have hbase : (pipeP6 env).2.telegram_sent = false := pipeP6_telegram_sent env
  have htel : (pipeP7 env).2.telegram_sent = false := by
    rw [pipeP7] at hd ⊢
    cases hat : telegramAttempt env (pipeP6 env).1 (pipeP5 env).1 with
    | ok tr =>
      by_cases hc : (tr.podcast_sent || tr.text_sent) = true
      · exfalso
        rw [telegramStage, hat] at hd
        simp only [hc, if_pos] at hd
        simp only [hd.1, hd.2] at hc
        simp at hc
      · rw [telegramStage, hat]
        simp only [Bool.not_eq_true] at hc
        simp [hc, hbase]
    | error e =>
      rw [telegramStage, hat]
      simpa using hbase
  simp only [run_daily_pipeline, if_neg h1, if_neg h3, finishSuccessfully]
  exact ⟨by trivial, by trivial, htel, by trivial⟩

/-! Concrete environments for the pipeline witnesses. -/

def sampleEnv (fetched : Except Str (List Article))
    (extractBatch : List Article → Except Str (List Article)) : PipelineEnv :=
  { fetched := fetched
    extractBatch := extractBatch
    duplicateThreshold := 0
    vectorize := fun _ => .ok (fun _ _ => 0)
    summarizer := { apiAvailable := false, aiResponse := fun _ => .error (str "no key") }
    metaSummarize := fun _ => .ok (str "meta")
    today := str "January 01, 2026"
    generatePodcast := fun _ => .ok none
    sendPodcast := fun _ _ => .ok { podcast_sent := true, text_sent := false
                                    primary_method := str "podcast" }
    sendTextSummary := fun _ => .ok false }

theorem run_pipeline_empty_fetch_witness :
    (run_daily_pipeline (sampleEnv (.ok []) (fun l => .ok l))).status = str "error" ∧
    (run_daily_pipeline (sampleEnv (.ok []) (fun l => .ok l))).error =
      some (str "No articles fetched from RSS feeds") :=
  ⟨(run_pipeline_empty_fetch (sampleEnv (.ok []) (fun l => .ok l)) (by decide)).1,
   (run_pipeline_empty_fetch (sampleEnv (.ok []) (fun l => .ok l)) (by decide)).2.1⟩

theorem run_pipeline_empty_postdedup_witness :
    (run_daily_pipeline (sampleEnv (.ok [{ full_text := some (str "News body") }])
      (fun _ => .ok []))).status = str "error" ∧
    (run_daily_pipeline (sampleEnv (.ok [{ full_text := some (str "News body") }])
      (fun _ => .ok []))).error =
      some (str "No articles remaining after deduplication") :=
  ⟨(run_pipeline_empty_postdedup (sampleEnv (.ok [{ full_text := some (str "News body") }])
      (fun _ => .ok [])) (by decide) (by decide)).1,
   (run_pipeline_empty_postdedup (sampleEnv (.ok [{ full_text := some (str "News body") }])
      (fun _ => .ok [])) (by decide) (by decide)).2.1⟩

theorem run_pipeline_delivery_failure_witness :
    (run_daily_pipeline (sampleEnv (.ok [{ full_text := some (str "News body") }])
      (fun l => .ok l))).status = str "success" ∧
    (run_daily_pipeline (sampleEnv (.ok [{ full_text := some (str "News body") }])
      (fun l => .ok l))).statistics.telegram_sent = false :=
  ⟨(run_pipeline_delivery_failure (sampleEnv (.ok [{ full_text := some (str "News body") }])
      (fun l => .ok l)) (by decide) (by decide) (by decide)).1,
   (run_pipeline_delivery_failure (sampleEnv (.ok [{ full_text := some (str "News body") }])
      (fun l => .ok l)) (by decide) (by decide) (by decide)).2.2.1⟩

end NewsExtraction
